import Mathlib

/-!
Verification development for the cycling-calories-calculator repository
(`src/index.js`).  The definitions below are a shallow embedding of the
program's core: the geometry extraction inside `parseGpxFile`, the
elevation refinement `enhanceElevationData`, the environmental context
provider `getWeatherData`, the calorie model `calculateDetailedCalories`
(with `calculateWindResistance`, `calculateTemperatureFactor`,
`calculateHumidityFactor`) and the breakdown `getCalorieBreakdown`.
JavaScript numbers are modelled as rationals where the code is pure
arithmetic, and as real numbers where the code uses `Math.cos` /
`Math.pow` with a fractional exponent.  `Math.round(x)` is `⌊x + 1/2⌋`
(JavaScript rounds ties towards +∞); `x.toFixed(1)` followed by
`parseFloat` is rounding to one decimal with the same tie rule.
JavaScript truthiness is modelled explicitly wherever the code relies on
it (`a || b`, `duration ? … : null`, `if (!minTime) …`).
-/

namespace CyclingCalc

/-- A GPX trackpoint as built in `parseGpxFile` (src/index.js:163-168):
latitude, longitude, optional elevation, optional timestamp.  The
timestamp is the JavaScript `Date` value in milliseconds since epoch. -/
structure TrackPoint where
  lat : ℚ
  lon : ℚ
  ele : Option ℚ
  time : Option ℚ
  deriving DecidableEq, Repr

/-- JavaScript `parseFloat(x.toFixed(1))`: round to one decimal, ties towards +∞
(JavaScript `toFixed` picks the larger candidate on a tie). -/
def toFixed1 (q : ℚ) : ℚ := (⌊q * 10 + 1/2⌋ : ℤ) / 10

/-- The elevation-gain accumulation loop (src/index.js:190-200 and again
src/index.js:292-299): walk consecutive pairs; when both elevations are
present and the current one is strictly larger, add the delta. -/
def gainLoop : List (Option ℚ) → ℚ
  | [] => 0
  | [_] => 0
  | a :: b :: rest =>
      (match a, b with
       | some x, some y => if x < y then y - x else 0
       | _, _ => 0) + gainLoop (b :: rest)

/-- Spec-side elevation gain, following the spec's words: the sum over
consecutive pairs in which both elevations are present of the positive
delta (current minus previous) when current > previous, descents
contributing zero. -/
def specGain (eles : List (Option ℚ)) : ℚ :=
  ((eles.zip eles.tail).map (fun pc =>
      match pc.1, pc.2 with
      | some x, some y => if x < y then y - x else 0
      | _, _ => 0)).sum

/-- The elevation gain as reported by `parseGpxFile`
(src/index.js:215): the loop total rounded to one decimal. -/
def parseElevationGain (points : List TrackPoint) : ℚ :=
  toFixed1 (gainLoop (points.map (·.ele)))

/-- The `minTime`/`maxTime` tracking loop of `parseGpxFile`
(src/index.js:202-206).  It runs over `points[1..]` only (the loop
starts at `i = 1` and looks at `curr.time`): `minTime` is set on the
first timestamped point seen, `maxTime` on every timestamped point. -/
def timeLoop (acc : Option ℚ × Option ℚ) : List TrackPoint → Option ℚ × Option ℚ
  | [] => acc
  | p :: rest =>
      match p.time with
      | some t => timeLoop (some (acc.1.getD t), some t) rest
      | none => timeLoop acc rest

/-- The timestamps carried by the points after the first one, in order. -/
def timesAfterFirst (points : List TrackPoint) : List ℚ :=
  (points.drop 1).filterMap (·.time)

/-- The `duration` field returned by `parseGpxFile`
(src/index.js:209,216): `(maxTime - minTime)/60000` minutes when both
are set, then `duration ? parseFloat(duration.toFixed(1)) : null` —
note that a duration of `0` is falsy in JavaScript and becomes `null`. -/
def durationOf (points : List TrackPoint) : Option ℚ :=
  match timeLoop (none, none) (points.drop 1) with
  | (some mn, some mx) =>
      let d := (mx - mn) / 60000
      if d = 0 then none else some (toFixed1 d)
  | _ => none

/-- Spec-side duration, following the claim's words: the difference, in
minutes, between the earliest and the latest timestamps present among
all points (the first point included); absent when fewer than two
points carry a timestamp. -/
def claimDurationSpec (points : List TrackPoint) : Option ℚ :=
  let ts := points.filterMap (·.time)
  if 2 ≤ ts.length then
    match ts.min?, ts.max? with
    | some a, some b => some ((b - a) / 60000)
    | _, _ => none
  else none

/-- The track summary produced by `parseGpxFile` and passed through
`enhanceElevationData` (src/index.js:212-221, 303-309).
`elevationEnhanced` is `none` when the field is absent (as in the
object `parseGpxFile` returns), `some b` when the code set it. -/
structure TrackSummary where
  points : List TrackPoint
  distance : ℚ
  elevationGain : ℚ
  duration : Option ℚ
  averageSpeed : Option ℚ
  hasElevation : Bool
  startLocation : ℚ × ℚ
  startTime : Option ℚ
  elevationEnhanced : Option Bool
  deriving DecidableEq, Repr

/-- One per-point step of the enhancement loop (src/index.js:252-274):
on a successful lookup the new elevation is
`response.data.elevation || point.ele` (so an elevation of `0` is falsy
and falls back to the original); on a failed lookup the original point
is kept.  `lookup p = some v` models a successful HTTP response with
numeric elevation `v`; `none` models a per-point failure. -/
def enhancePoint (lookup : TrackPoint → Option ℚ) (p : TrackPoint) : TrackPoint :=
  match lookup p with
  | some v => { p with ele := if v = 0 then p.ele else some v }
  | none => p

/-- Embedding of `enhanceElevationData` (src/index.js:231-315).  `hasKey` is whether
`config.gpxzApiKey` is set; `abortErr` is whether an unexpected error
occurs outside the per-point handling (the outer `catch` at
src/index.js:311-314).  Only the first 1000 points go through the
lookup (src/index.js:241); the rest are appended unchanged
(src/index.js:286-288); the gain is then recomputed from scratch and
the summary is tagged `hasElevation: true, elevationEnhanced: true`
(src/index.js:303-309). -/
def enhanceElevationData (hasKey abortErr : Bool)
    (lookup : TrackPoint → Option ℚ) (g : TrackSummary) : TrackSummary :=
  if hasKey = false then g
  else if abortErr then { g with elevationEnhanced := some false }
  else
    let enhanced := (g.points.take 1000).map (enhancePoint lookup) ++ g.points.drop 1000
    { g with
      points := enhanced
      elevationGain := toFixed1 (gainLoop (enhanced.map (·.ele)))
      hasElevation := true
      elevationEnhanced := some true }

/-- A raw weather API response body, fields optional (the code reads
them with `||`-defaults, src/index.js:360-368, 386-394, 417-425). -/
structure WeatherResp where
  windSpeed : Option ℚ
  windDeg : Option ℚ
  humidity : Option ℚ
  temp : Option ℚ
  pressure : Option ℚ
  deriving DecidableEq, Repr

/-- JavaScript `a || b` on an optional numeric field: `b` when the
field is absent or equal to `0` (zero is falsy), the value otherwise. -/
def jsOr (v : Option ℚ) (d : ℚ) : ℚ :=
  match v with
  | some x => if x = 0 then d else x
  | none => d

/-- The provenance tag `source` of a conditions value
(src/index.js:328,366,392,423,436). -/
inductive WSource where
  | default | current | historical | current_fallback | fallback
  deriving DecidableEq, Repr

/-- The `date` label of a conditions value: a human-readable string in
the code, modelled as the data it is derived from. -/
inductive DateLabel where
  | ride (ms : ℚ)
  | current
  | defaultLabel
  | currentHistUnavailable
  deriving DecidableEq, Repr

/-- The environmental-conditions value `getWeatherData` returns.
`pressure` is absent in the default/fallback records
(src/index.js:323-330, 431-438). -/
structure Conditions where
  windSpeed : ℚ
  windDirection : ℚ
  humidity : ℚ
  temperature : ℚ
  pressure : Option ℚ
  source : WSource
  date : DateLabel
  deriving DecidableEq, Repr

/-- The default record returned when no weather API key is configured
(src/index.js:321-331). -/
def defaultConditions (rideDate : Option ℚ) : Conditions :=
  ⟨0, 0, 50, 20, none, .default,
    match rideDate with | some d => .ride d | none => .current⟩

/-- The fallback record returned when a lookup fails with no successful
fallback (src/index.js:431-438). -/
def fallbackConditions (rideDate : Option ℚ) : Conditions :=
  ⟨0, 0, 50, 20, none, .fallback,
    match rideDate with | some d => .ride d | none => .defaultLabel⟩

/-- Conditions built from a successful historical response
(src/index.js:358-368). -/
def histConditions (r : WeatherResp) (d : ℚ) : Conditions :=
  ⟨jsOr r.windSpeed 0, jsOr r.windDeg 0, jsOr r.humidity 50,
    jsOr r.temp 20, some (jsOr r.pressure 1013), .historical, .ride d⟩

/-- Conditions built from a successful current response
(src/index.js:384-394). -/
def currConditions (r : WeatherResp) (rideDate : Option ℚ) : Conditions :=
  ⟨jsOr r.windSpeed 0, jsOr r.windDeg 0, jsOr r.humidity 50,
    jsOr r.temp 20, some (jsOr r.pressure 1013), .current,
    match rideDate with | some d => .ride d | none => .current⟩

/-- Conditions built from a successful current-weather retry after a
historical failure (src/index.js:416-425). -/
def currFbConditions (r : WeatherResp) : Conditions :=
  ⟨jsOr r.windSpeed 0, jsOr r.windDeg 0, jsOr r.humidity 50,
    jsOr r.temp 20, some (jsOr r.pressure 1013), .current_fallback,
    .currentHistUnavailable⟩

/-- The `catch` block of `getWeatherData` (src/index.js:399-438):
when a ride date is present and the failed call carried HTTP status
401, retry once via the current endpoint (`currFbRes`); on success tag
`current_fallback`, on failure fall through to the fallback record;
without a ride date or a 401 status go straight to the fallback
record.  A call's failure is modelled as `Except.error status` with
`status : Option ℕ` the HTTP status of `error.response`, when any. -/
def weatherCatch (rideDate : Option ℚ) (status : Option ℕ)
    (currFbRes : Except (Option ℕ) WeatherResp) : Conditions :=
  if rideDate.isSome ∧ status = some 401 then
    match currFbRes with
    | .ok r => currFbConditions r
    | .error _ => fallbackConditions rideDate
  else fallbackConditions rideDate

/-- Five days in milliseconds (src/index.js:339). -/
def fiveDaysMs : ℚ := 5 * 24 * 60 * 60 * 1000

/-- Embedding of `getWeatherData` (src/index.js:320-440).  `hasKey` is whether
`config.weatherApiKey` is set; `nowMs` the current time; `rideDate`
the optional ride timestamp; `histRes`, `currRes`, `currFbRes` the
outcomes the historical call, the primary current call, and the retry
current call would have.  The historical endpoint is used exactly when
a ride date exists and is more than five days before now
(src/index.js:341); every failure goes through `weatherCatch`. -/
def getWeatherData (hasKey : Bool) (nowMs : ℚ) (rideDate : Option ℚ)
    (histRes currRes currFbRes : Except (Option ℕ) WeatherResp) : Conditions :=
  if hasKey = false then defaultConditions rideDate
  else
    match rideDate with
    | some d =>
        if d < nowMs - fiveDaysMs then
          match histRes with
          | .ok r => histConditions r d
          | .error s => weatherCatch (some d) s currFbRes
        else
          match currRes with
          | .ok r => currConditions r (some d)
          | .error s => weatherCatch (some d) s currFbRes
    | none =>
        match currRes with
        | .ok r => currConditions r none
        | .error s => weatherCatch none s currFbRes

/-- JavaScript `Math.round`: nearest integer, ties towards +∞. -/
noncomputable def jsRound (x : ℝ) : ℤ := ⌊x + 1/2⌋

/-- JavaScript `Math.round` on a rational (the breakdown percentages,
src/index.js:552-570). -/
def jsRoundQ (x : ℚ) : ℤ := ⌊x + 1/2⌋

/-- The base MET step function `getBaseMET` (src/index.js:456-462). -/
noncomputable def getBaseMET (speed : ℝ) : ℝ :=
  if speed < 16 then 4.0
  else if speed < 19 then 6.8
  else if speed < 22 then 8.5
  else if speed < 25 then 10.0
  else 12.0

/-- Embedding of `calculateWindResistance` (src/index.js:499-510): headwind
component from the wind direction in degrees, effective speed, a
2.5-power speed factor, clamped with
`Math.max(-0.3, Math.min(0.5, ·))`.  Faithfulness caveat: when the
power base `(speed + headwind)/speed` is negative (a tailwind stronger
than the rider's speed) JavaScript's `Math.pow` yields NaN, and when
`speed = 0` the division yields NaN/±Infinity, while `Real.rpow` and
total real division give ordinary values here; theorems about inputs
reaching those paths must therefore carry hypotheses keeping the base
non-negative and the speed nonzero. -/
noncomputable def calculateWindResistance (speed windSpeed windDirection : ℝ) : ℝ :=
  max (-0.3) (min 0.5
    (((speed + windSpeed * Real.cos (windDirection * Real.pi / 180)) / speed) ^
        (2.5 : ℝ) - 1))

/-- Spec-side wind factor, following the spec's words: headwind
component `windSpeed × cos(windDirectionDeg in radians)`,
`effectiveSpeed = averageSpeed + headwindComponent`,
`speedFactor = (effectiveSpeed/averageSpeed)^2.5 − 1` clamped to the
interval `[−0.30, +0.50]`. -/
noncomputable def specWindFactor (averageSpeed windSpeed windDirectionDeg : ℝ) : ℝ :=
  min 0.5 (max (-0.3)
    (((averageSpeed + windSpeed * Real.cos (windDirectionDeg * Real.pi / 180)) /
        averageSpeed) ^ (2.5 : ℝ) - 1))

/-- Embedding of `calculateTemperatureFactor` (src/index.js:515-520). -/
noncomputable def calculateTemperatureFactor (temperature : ℝ) : ℝ :=
  if 15 ≤ temperature ∧ temperature ≤ 25 then 1.0
  else if temperature < 15 then 1.0 + (15 - temperature) * 0.02
  else 1.0 + (temperature - 25) * 0.015

/-- Embedding of `calculateHumidityFactor` (src/index.js:525-528). -/
noncomputable def calculateHumidityFactor (humidity : ℝ) : ℝ :=
  1.0 + (humidity - 50) * 0.002

/-- The weather fields `calculateDetailedCalories` reads
(src/index.js:474-479). -/
structure WeatherInput where
  windSpeed : ℝ
  windDirection : ℝ
  temperature : ℝ
  humidity : ℝ

/-- The parameter object of `calculateDetailedCalories`
(src/index.js:446-453). -/
structure CalorieParams where
  weight : ℝ
  distance : ℝ
  duration : ℝ
  elevationGain : ℝ
  averageSpeed : ℝ
  weather : WeatherInput

/-- The record `calculateDetailedCalories` returns
(src/index.js:484-493): every calorie component rounded with
`Math.round`, `baseMET` unrounded. -/
structure CalorieEstimate where
  totalCalories : ℤ
  baseCalories : ℤ
  elevationCalories : ℤ
  windAdjustment : ℤ
  environmentalAdjustment : ℤ
  baseMET : ℝ
  caloriesPerKm : ℤ
  caloriesPerHour : ℤ

/-- Unrounded base calories (src/index.js:467). -/
noncomputable def baseCaloriesOf (p : CalorieParams) : ℝ :=
  getBaseMET p.averageSpeed * p.weight * (p.duration / 60)

/-- Unrounded elevation calories (src/index.js:471). -/
noncomputable def elevationCaloriesOf (p : CalorieParams) : ℝ :=
  p.elevationGain / 100 * p.weight * 10

/-- Unrounded wind adjustment (src/index.js:474-475). -/
noncomputable def windAdjustmentOf (p : CalorieParams) : ℝ :=
  baseCaloriesOf p *
    calculateWindResistance p.averageSpeed p.weather.windSpeed p.weather.windDirection

/-- Unrounded environmental adjustment (src/index.js:478-480). -/
noncomputable def environmentalAdjustmentOf (p : CalorieParams) : ℝ :=
  baseCaloriesOf p *
    (calculateTemperatureFactor p.weather.temperature +
      calculateHumidityFactor p.weather.humidity - 2)

/-- Unrounded total (src/index.js:482). -/
noncomputable def totalCaloriesOf (p : CalorieParams) : ℝ :=
  baseCaloriesOf p + elevationCaloriesOf p + windAdjustmentOf p +
    environmentalAdjustmentOf p

/-- Embedding of `calculateDetailedCalories` (src/index.js:445-494).  There is no
input validation anywhere in the function: it is total on its
parameters.  Faithfulness caveat: `caloriesPerKm` and
`caloriesPerHour` divide by `distance` and `duration`; at a zero
divisor JavaScript produces NaN/±Infinity where total real division
gives 0, so theorems about those fields must carry nonzero-divisor
hypotheses (and the wind-factor caveat of `calculateWindResistance`
applies to every field through `windAdjustmentOf`). -/
noncomputable def calculateDetailedCalories (p : CalorieParams) : CalorieEstimate :=
  { totalCalories := jsRound (totalCaloriesOf p)
    baseCalories := jsRound (baseCaloriesOf p)
    elevationCalories := jsRound (elevationCaloriesOf p)
    windAdjustment := jsRound (windAdjustmentOf p)
    environmentalAdjustment := jsRound (environmentalAdjustmentOf p)
    baseMET := getBaseMET p.averageSpeed
    caloriesPerKm := jsRound (totalCaloriesOf p / p.distance)
    caloriesPerHour := jsRound (totalCaloriesOf p / (p.duration / 60)) }

/-- The four breakdown factors (the code uses the strings
`'Base Activity'`, `'Elevation Gain'`, `'Wind Resistance'`,
`'Environmental'`, src/index.js:550-568; the constant `description`
strings are not modelled). -/
inductive Factor where
  | base | elevation | wind | environmental
  deriving DecidableEq, Repr

/-- One entry of the breakdown array (src/index.js:549-572). -/
structure BreakdownEntry where
  factor : Factor
  calories : ℤ
  percentage : ℤ
  deriving DecidableEq, Repr

/-- The fields of the summary record that `getCalorieBreakdown` reads:
the already-rounded components and the rounded total
(src/index.js:547-575). -/
structure CalorieData where
  totalCalories : ℤ
  baseCalories : ℤ
  elevationCalories : ℤ
  windAdjustment : ℤ
  environmentalAdjustment : ℤ
  deriving DecidableEq, Repr

/-- One percentage of the breakdown:
`Math.round((component / totalCalories) * 100)` (src/index.js:552). -/
def breakdownPct (c total : ℤ) : ℤ := jsRoundQ ((c : ℚ) / (total : ℚ) * 100)

/-- Embedding of `getCalorieBreakdown` (src/index.js:547-576): the four entries in
order, then `filter(item => Math.abs(item.calories) > 1)`. -/
def getCalorieBreakdown (d : CalorieData) : List BreakdownEntry :=
  ([⟨.base, d.baseCalories, breakdownPct d.baseCalories d.totalCalories⟩,
    ⟨.elevation, d.elevationCalories, breakdownPct d.elevationCalories d.totalCalories⟩,
    ⟨.wind, d.windAdjustment, breakdownPct d.windAdjustment d.totalCalories⟩,
    ⟨.environmental, d.environmentalAdjustment,
      breakdownPct d.environmentalAdjustment d.totalCalories⟩] :
    List BreakdownEntry).filter (fun e => 1 < e.calories.natAbs)

/-- The four calorie components in breakdown order, with their
factors. -/
def componentsOf (d : CalorieData) : List (Factor × ℤ) :=
  [(.base, d.baseCalories), (.elevation, d.elevationCalories),
   (.wind, d.windAdjustment), (.environmental, d.environmentalAdjustment)]

/-- Spec-side breakdown, following the spec's words: keep exactly the
components whose rounded calories have absolute value greater than 1,
each with percentage `round(componentCalories/totalCalories × 100)`
computed independently. -/
def specBreakdown (d : CalorieData) : List BreakdownEntry :=
  (componentsOf d).filterMap (fun fc =>
    if 1 < fc.2.natAbs then
      some ⟨fc.1, fc.2, jsRoundQ ((fc.2 : ℚ) / (d.totalCalories : ℚ) * 100)⟩
    else none)

/-- A concrete one-point summary (no elevation, no tag) used in the C3
counterexample and witness. -/
def gC3 : TrackSummary :=
  ⟨[⟨0, 0, none, none⟩], 0, 0, none, none, false, (0, 0), none, none⟩

/-! ## Theorems -/

/-- The `minTime`/`maxTime` loop computes the first and the last
timestamp (in scan order) of the list it runs over, seeded by the
accumulator. -/
lemma timeLoop_spec (l : List TrackPoint) : ∀ mn mx : Option ℚ,
    timeLoop (mn, mx) l =
      (mn.or (l.filterMap (·.time)).head?,
       ((l.filterMap (·.time)).getLast?).or mx) := by
  induction l with
  | nil => intro mn mx; simp [timeLoop]
  | cons p rest ih =>
      intro mn mx
      cases hp : p.time with
      | none => simp [timeLoop, hp, ih, List.filterMap_cons]
      | some t =>
          simp only [timeLoop, hp, ih, List.filterMap_cons, List.getLast?_cons,
            List.head?_cons]
          cases mn <;> cases hl : (rest.filterMap (·.time)).getLast? <;>
            simp [Option.getD, Option.or]

/-- C2 (amended): the duration reported by the Geometry Extractor is
computed from the timestamps of the points after the first one only
(the first point's timestamp is never examined): it equals the
difference, in minutes, between the first and the last such timestamp
in scan order, rounded to one decimal, and it is absent when no point
after the first carries a timestamp or when that difference is zero
(in particular when exactly one point after the first is
timestamped). -/
theorem C2_duration_amended (points : List TrackPoint) :
    durationOf points =
      match (timesAfterFirst points).head?, (timesAfterFirst points).getLast? with
      | some a, some b => if b = a then none else some (toFixed1 ((b - a) / 60000))
      | _, _ => none := by
  unfold durationOf timesAfterFirst
  rw [timeLoop_spec]
  cases h1 : ((points.drop 1).filterMap (·.time)).head? with
  | none => simp [Option.or]
  | some a =>
      cases h2 : ((points.drop 1).filterMap (·.time)).getLast? with
      | none => simp [Option.or]
      | some b =>
          simp only [Option.or]
          by_cases hba : b = a
          · simp [hba]
          · have : (b - a) / 60000 ≠ 0 := by
              exact div_ne_zero (sub_ne_zero.mpr hba) (by norm_num)
            simp [hba, this]

/-- C2 (counterexample): two points, both timestamped, ten minutes
apart.  The claim says the duration is the difference between the
earliest and the latest timestamps among all points — ten minutes —
and is present since two points carry a timestamp.  The code never
looks at the first point's timestamp, finds a single timestamp after
it, computes a zero duration, and `0` being falsy reports the duration
as absent. -/
theorem C2_counterexample :
    claimDurationSpec [⟨0, 0, none, some 0⟩, ⟨0, 0, none, some 600000⟩] = some 10 ∧
    durationOf [⟨0, 0, none, some 0⟩, ⟨0, 0, none, some 600000⟩] = none := by
  constructor
  · simp [claimDurationSpec, List.filterMap_cons, List.min?, List.max?]
    norm_num
  · simp [durationOf, timeLoop, List.filterMap_cons]

/-- The elevation-gain loop computes the spec's sum of positive deltas
over consecutive pairs. -/
lemma gainLoop_eq_specGain : ∀ eles : List (Option ℚ), gainLoop eles = specGain eles := by
  intro eles
  induction eles with
  | nil => rfl
  | cons a rest ih =>
      cases rest with
      | nil => rfl
      | cons b rest2 =>
          simp only [gainLoop, specGain, List.zip, List.tail, List.zipWith, List.map,
            List.sum_cons] at ih ⊢
          rw [ih]

/-- A run of non-increasing elevations contributes no gain. -/
lemma gainLoop_descent : ∀ l : List ℚ, List.Chain' (fun a b => b ≤ a) l →
    gainLoop (l.map some) = 0 := by
  intro l
  induction l with
  | nil => intro _; rfl
  | cons x rest ih =>
      intro hc
      cases rest with
      | nil => rfl
      | cons y rest2 =>
          rw [List.chain'_cons] at hc
          simp only [List.map, gainLoop]
          have h2 := ih hc.2
          simp only [List.map] at h2
          rw [h2, if_neg (not_lt.mpr hc.1), zero_add]

/-- C6 (amended): in the initial extraction and in the post-refinement
recomputation alike, the computed elevation gain equals — up to the
one-decimal rounding applied at the component boundary — the sum over
consecutive pairs in which both elevations are present of the positive
delta (current minus previous) when current > previous, descents
contributing zero.  The pairs inside a descent segment therefore
contribute zero, exactly as the pairs inside a flat segment of equal
point count do; but replacing a descent segment by a flat segment
changes the elevations at the segment's ends, so the pairs at the
segment's boundary may change and the total gain with them (see the
counterexample). -/
theorem C6_elevation_gain_amended :
    (∀ points : List TrackPoint,
        parseElevationGain points = toFixed1 (specGain (points.map (·.ele)))) ∧
    (∀ (g : TrackSummary) (lookup : TrackPoint → Option ℚ),
        (enhanceElevationData true false lookup g).elevationGain =
          toFixed1 (specGain
            (((g.points.take 1000).map (enhancePoint lookup) ++
                g.points.drop 1000).map (·.ele)))) ∧
    (∀ l : List ℚ, List.Chain' (fun a b => b ≤ a) l → gainLoop (l.map some) = 0) ∧
    (∀ (n : ℕ) (c : ℚ), gainLoop (List.replicate n (some c)) = 0) := by
  refine ⟨?_, ?_, gainLoop_descent, ?_⟩
  · intro points
    rw [parseElevationGain, gainLoop_eq_specGain]
  · intro g lookup
    show toFixed1 (gainLoop _) = _
    rw [gainLoop_eq_specGain]
  · intro n c
    have h : List.replicate n (some c) = (List.replicate n c).map some := by
      simp [List.map_replicate]
    rw [h, gainLoop_descent]
    exact List.chain'_replicate_of_rel n (le_refl c)

/-- C6 (counterexample): the elevation sequence `[10, 5, 10]` has gain
`5`; replacing its descent segment `[10, 5]` by the flat segment
`[10, 10]` of equal point count yields `[10, 10, 10]`, whose gain is
`0` — the computed gain is not invariant under that replacement,
contrary to the claim's last part. -/
theorem C6_counterexample :
    parseElevationGain
        [⟨0, 0, some 10, none⟩, ⟨0, 0, some 5, none⟩, ⟨0, 0, some 10, none⟩] = 5 ∧
    parseElevationGain
        [⟨0, 0, some 10, none⟩, ⟨0, 0, some 10, none⟩, ⟨0, 0, some 10, none⟩] = 0 := by
  constructor <;> · simp [parseElevationGain, gainLoop, toFixed1]; norm_num

/-- C6 (witness): the amended theorem applied to the concrete descent
`[3, 2, 1]`. -/
theorem C6_witness : gainLoop ([3, 2, 1].map some) = 0 :=
  C6_elevation_gain_amended.2.2.1 [3, 2, 1] (by norm_num [List.chain'_cons])

/-- C3 (amended): the Elevation Refiner returns its input *unchanged*
— with no `elevationEnhanced=false` tag added — when no API key is
configured; when every per-point lookup fails it instead returns a
summary with the same points and the recomputed (unchanged) gain,
tagged `elevationEnhanced=true` and `hasElevation=true`; only when the
enhancement aborts with an unexpected error outside the per-point
handling does it return the input tagged `elevationEnhanced=false`. -/
theorem C3_refiner_amended (g : TrackSummary) (lookup : TrackPoint → Option ℚ) :
    (∀ ab : Bool, enhanceElevationData false ab lookup g = g) ∧
    enhanceElevationData true true lookup g = { g with elevationEnhanced := some false } ∧
    ((∀ p, lookup p = none) →
      enhanceElevationData true false lookup g =
        { g with
            elevationGain := toFixed1 (gainLoop (g.points.map (·.ele)))
            hasElevation := true
            elevationEnhanced := some true }) := by
  refine ⟨fun ab => rfl, rfl, fun hfail => ?_⟩
  have hmap : (g.points.take 1000).map (enhancePoint lookup) = g.points.take 1000 := by
    have h1 : ∀ p ∈ g.points.take 1000, enhancePoint lookup p = id p := by
      intro p _
      simp [enhancePoint, hfail p]
    rw [List.map_congr_left h1, List.map_id]
  have hpts : (g.points.take 1000).map (enhancePoint lookup) ++ g.points.drop 1000 =
      g.points := by
    rw [hmap, List.take_append_drop]
  calc enhanceElevationData true false lookup g
      = { g with
            points := (g.points.take 1000).map (enhancePoint lookup) ++
              g.points.drop 1000
            elevationGain := toFixed1 (gainLoop
              (((g.points.take 1000).map (enhancePoint lookup) ++
                  g.points.drop 1000).map (·.ele)))
            hasElevation := true
            elevationEnhanced := some true } := rfl
    _ = _ := by rw [hpts]

/-- C3 (counterexample): with no API key configured, the refiner
returns its input with the `elevationEnhanced` field still absent —
not tagged `false`; and when every per-point lookup fails (a lookup
that always fails), the output is tagged `elevationEnhanced=true` and
its `hasElevation` field differs from the input's — in neither case is
the output the input tagged `elevationEnhanced=false` as claimed. -/
theorem C3_counterexample :
    (enhanceElevationData false false (fun _ => none) gC3 = gC3 ∧
      gC3.elevationEnhanced ≠ some false) ∧
    ((enhanceElevationData true false (fun _ => none) gC3).elevationEnhanced =
        some true ∧
      (enhanceElevationData true false (fun _ => none) gC3).hasElevation ≠
        gC3.hasElevation) := by
  exact ⟨⟨rfl, by simp [gC3]⟩, ⟨rfl, by simp [enhanceElevationData, gC3]⟩⟩

/-- C3 (witness): the amended theorem's all-lookups-fail case applied
to the concrete summary `gC3`. -/
theorem C3_witness :
    enhanceElevationData true false (fun _ => none) gC3 =
      { gC3 with
          elevationGain := toFixed1 (gainLoop (gC3.points.map (·.ele)))
          hasElevation := true
          elevationEnhanced := some true } :=
  (C3_refiner_amended gC3 (fun _ => none)).2.2 (fun _ => rfl)

/-- Indexing into the enhanced point list: positions below the
1000-point cap see the per-point enhancement, positions at or above it
see the original list. -/
lemma enhancedPoints_getElem (lookup : TrackPoint → Option ℚ)
    (l : List TrackPoint) (i : ℕ) :
    ((l.take 1000).map (enhancePoint lookup) ++ l.drop 1000)[i]? =
      if i < 1000 then (l[i]?).map (enhancePoint lookup) else l[i]? := by
  by_cases h : i < 1000
  · rw [if_pos h]
    by_cases hlen : i < ((l.take 1000).map (enhancePoint lookup)).length
    · rw [List.getElem?_append_left hlen, List.getElem?_map, List.getElem?_take_of_lt h]
    · push_neg at hlen
      rw [List.length_map, List.length_take] at hlen
      have hli : l.length ≤ i := by omega
      have hd : l.drop 1000 = [] := by
        rw [List.drop_eq_nil_iff]
        omega
      rw [List.getElem?_append_right (by simpa using hlen), hd]
      simp [List.getElem?_eq_none hli]
  · rw [if_neg h]
    push_neg at h
    have hlen : ((l.take 1000).map (enhancePoint lookup)).length ≤ i := by
      rw [List.length_map, List.length_take]
      omega
    rw [List.getElem?_append_right hlen, List.getElem?_drop]
    rw [List.length_map, List.length_take]
    by_cases hl : 1000 ≤ l.length
    · have : 1000 + (i - min 1000 l.length) = i := by omega
      rw [this]
    · push_neg at hl
      have h1 : l.length ≤ 1000 + (i - min 1000 l.length) := by omega
      have h2 : l.length ≤ i := by omega
      rw [List.getElem?_eq_none h1, List.getElem?_eq_none h2]

/-- Per-point enhancement only ever touches the elevation field. -/
lemma enhancePoint_frame (lookup : TrackPoint → Option ℚ) (p : TrackPoint) :
    (enhancePoint lookup p).lat = p.lat ∧ (enhancePoint lookup p).lon = p.lon ∧
      (enhancePoint lookup p).time = p.time := by
  cases h : lookup p <;> simp [enhancePoint, h]

/-- C10: when elevation enhancement runs with a configured key and
does not abort, the output point sequence has the same length (and
order) as the input, every point's latitude, longitude and timestamp
are identical to the input's, and points at index 1000 or beyond are
returned identically — only the elevation of a point among the first
1000 may differ. -/
theorem C10_enhance_frame (g : TrackSummary) (lookup : TrackPoint → Option ℚ) :
    (enhanceElevationData true false lookup g).points.length = g.points.length ∧
    (∀ i : ℕ,
      ((enhanceElevationData true false lookup g).points[i]?).map (·.lat) =
        (g.points[i]?).map (·.lat) ∧
      ((enhanceElevationData true false lookup g).points[i]?).map (·.lon) =
        (g.points[i]?).map (·.lon) ∧
      ((enhanceElevationData true false lookup g).points[i]?).map (·.time) =
        (g.points[i]?).map (·.time) ∧
      (1000 ≤ i →
        (enhanceElevationData true false lookup g).points[i]? = g.points[i]?)) := by
  have hpts : (enhanceElevationData true false lookup g).points =
      (g.points.take 1000).map (enhancePoint lookup) ++ g.points.drop 1000 := rfl
  constructor
  · rw [hpts]
    simp only [List.length_append, List.length_map, List.length_take, List.length_drop]
    omega
  · intro i
    rw [hpts, enhancedPoints_getElem]
    by_cases h : i < 1000
    · rw [if_pos h]
      refine ⟨?_, ?_, ?_, fun hge => absurd h (by omega)⟩ <;>
        cases hp : g.points[i]? <;>
          simp [enhancePoint_frame]
    · rw [if_neg h]
      exact ⟨rfl, rfl, rfl, fun _ => rfl⟩

/-- C10 (witness): the frame theorem applied to a concrete one-point
summary and an always-failing lookup, at index 1000. -/
theorem C10_witness :
    (enhanceElevationData true false (fun _ => none)
        ⟨[⟨1, 2, some 3, none⟩], 0, 0, none, none, true, (1, 2), none, none⟩).points[1000]? =
      (⟨[⟨1, 2, some 3, none⟩], 0, 0, none, none, true, (1, 2), none,
          none⟩ : TrackSummary).points[1000]? :=
  ((C10_enhance_frame ⟨[⟨1, 2, some 3, none⟩], 0, 0, none, none, true, (1, 2), none, none⟩
      (fun _ => none)).2 1000).2.2.2 (by norm_num)

/-- C7: the Environmental Context Provider is total — it returns a
conditions value on every input and every external-failure behaviour
(our embedding of `getWeatherData` is a total function; every code
path of the source returns, none throws).  When no API key is
configured the result is the default record; when every lookup fails
(historical, current, and the retry all error) the result is the
fallback record; both records carry windSpeed=0, windDirection=0,
humidity=50, temperature=20, tagged `default` respectively
`fallback`. -/
theorem C7_weather_never_raises (nowMs : ℚ) (rideDate : Option ℚ)
    (histRes currRes currFbRes : Except (Option ℕ) WeatherResp) :
    getWeatherData false nowMs rideDate histRes currRes currFbRes =
      defaultConditions rideDate ∧
    (∀ s1 s2 s3 : Option ℕ,
      getWeatherData true nowMs rideDate (.error s1) (.error s2) (.error s3) =
        fallbackConditions rideDate) ∧
    (defaultConditions rideDate).windSpeed = 0 ∧
    (defaultConditions rideDate).windDirection = 0 ∧
    (defaultConditions rideDate).humidity = 50 ∧
    (defaultConditions rideDate).temperature = 20 ∧
    (defaultConditions rideDate).source = .default ∧
    (fallbackConditions rideDate).windSpeed = 0 ∧
    (fallbackConditions rideDate).windDirection = 0 ∧
    (fallbackConditions rideDate).humidity = 50 ∧
    (fallbackConditions rideDate).temperature = 20 ∧
    (fallbackConditions rideDate).source = .fallback := by
  refine ⟨rfl, fun s1 s2 s3 => ?_, rfl, rfl, rfl, rfl, rfl, rfl, rfl, rfl, rfl, rfl⟩
  cases rideDate with
  | none => simp [getWeatherData, weatherCatch]
  | some d =>
      by_cases hd : d < nowMs - fiveDaysMs <;>
        simp [getWeatherData, weatherCatch, hd]

/-- C8: for a ride date more than five days before now, when the
historical endpoint fails with HTTP status 401 (authorization denied)
and the single retry through the current endpoint succeeds, the
provider returns the retry's data tagged `current_fallback` — not
`fallback`.  (The embedding performs exactly one retry by
construction, mirroring the single nested call at
src/index.js:405-425.) -/
theorem C8_hist401_current_fallback (nowMs d : ℚ)
    (currRes : Except (Option ℕ) WeatherResp) (r : WeatherResp)
    (h : d < nowMs - fiveDaysMs) :
    getWeatherData true nowMs (some d) (.error (some 401)) currRes (.ok r) =
      currFbConditions r ∧
    (getWeatherData true nowMs (some d) (.error (some 401)) currRes (.ok r)).source =
      WSource.current_fallback := by
  have heq : getWeatherData true nowMs (some d) (.error (some 401)) currRes (.ok r) =
      weatherCatch (some d) (some 401) (.ok r) := by
    simp [getWeatherData, h]
  rw [heq]
  exact ⟨by simp [weatherCatch], by simp [weatherCatch, currFbConditions]⟩

/-- C8 (witness): the fallback-tagging theorem at a concrete old ride
date, a concrete 401 historical failure and a concrete successful
retry. -/
theorem C8_witness :
    getWeatherData true 1000000000000 (some 0) (.error (some 401)) (.error none)
        (.ok ⟨some 3, some 90, some 80, some 25, some 1000⟩) =
      currFbConditions ⟨some 3, some 90, some 80, some 25, some 1000⟩ :=
  (C8_hist401_current_fallback 1000000000000 0 (.error none)
      ⟨some 3, some 90, some 80, some 25, some 1000⟩
      (by norm_num [fiveDaysMs])).1

/-- Evaluation rule for the JavaScript rounding of a rational. -/
lemma jsRoundQ_eq (x : ℚ) (z : ℤ) (h1 : (z : ℚ) ≤ x + 1/2) (h2 : x + 1/2 < z + 1) :
    jsRoundQ x = z := by
  unfold jsRoundQ
  rw [Int.floor_eq_iff]
  constructor
  · exact_mod_cast h1
  · exact_mod_cast h2

/-- Filtering the built breakdown entries by calorie size is the same
as building entries only for the large-enough components. -/
lemma filter_entries_eq_filterMap (tot : ℤ) (L : List (Factor × ℤ)) :
    ((L.map (fun fc => (⟨fc.1, fc.2, breakdownPct fc.2 tot⟩ : BreakdownEntry))).filter
        (fun e => 1 < e.calories.natAbs)) =
      L.filterMap (fun fc =>
        if 1 < fc.2.natAbs then
          some ⟨fc.1, fc.2, jsRoundQ ((fc.2 : ℚ) / (tot : ℚ) * 100)⟩
        else none) := by
  induction L with
  | nil => rfl
  | cons a L ih =>
      simp only [List.map_cons, List.filter_cons, List.filterMap_cons]
      by_cases hc : 1 < a.2.natAbs
      · rw [if_pos hc]
        simp only [hc, ih, decide_True, if_true]
        rfl
      · rw [if_neg hc]
        simp only [hc, ih, decide_False]
        rw [if_neg Bool.false_ne_true]

/-- C9 (amended): for every calorie summary with a nonzero rounded
total, the breakdown contains exactly the components (Base, Elevation,
Wind, Environmental) whose rounded calories have absolute value
greater than 1 — dropping an entry does not change the `totalCalories`
the entries are measured against — and each entry's percentage equals
`round(componentCalories/totalCalories × 100)`, computed
independently; the percentage is an integer but need not lie between 0
and 100 (see the counterexample). -/
theorem C9_breakdown_amended (d : CalorieData) (_h : d.totalCalories ≠ 0) :
    getCalorieBreakdown d = specBreakdown d ∧
    ∀ e ∈ getCalorieBreakdown d,
      e.percentage = jsRoundQ ((e.calories : ℚ) / (d.totalCalories : ℚ) * 100) ∧
      1 < e.calories.natAbs := by
  have heq : getCalorieBreakdown d = specBreakdown d := by
    have hform : getCalorieBreakdown d =
        ((componentsOf d).map (fun fc =>
            (⟨fc.1, fc.2, breakdownPct fc.2 d.totalCalories⟩ : BreakdownEntry))).filter
          (fun e => 1 < e.calories.natAbs) := rfl
    rw [hform, filter_entries_eq_filterMap]
    rfl
  refine ⟨heq, fun e he => ?_⟩
  have hmem := he
  unfold getCalorieBreakdown at hmem
  rw [List.mem_filter] at hmem
  obtain ⟨hin, hsize⟩ := hmem
  refine ⟨?_, by simpa using hsize⟩
  simp only [List.mem_cons, List.not_mem_nil, or_false] at hin
  rcases hin with h1 | h1 | h1 | h1 <;> · rw [h1]; rfl

/-- C9 (witness): the amended breakdown theorem at a concrete
summary. -/
theorem C9_witness :
    (⟨100, 50, 1, -2, 0⟩ : CalorieData).totalCalories ≠ 0 ∧
    getCalorieBreakdown ⟨100, 50, 1, -2, 0⟩ = specBreakdown ⟨100, 50, 1, -2, 0⟩ :=
  ⟨by decide, (C9_breakdown_amended ⟨100, 50, 1, -2, 0⟩ (by decide)).1⟩

/-- C9 (counterexample): the summary with rounded components
base=595, elevation=0, wind=−178, environmental=0 and rounded total
417 (a strong tailwind makes the wind adjustment negative).  Its
breakdown keeps the Base and Wind entries, whose independently rounded
percentages are 143 and −43 — both outside the claimed range 0–100. -/
theorem C9_counterexample :
    getCalorieBreakdown ⟨417, 595, 0, -178, 0⟩ =
      [⟨.base, 595, 143⟩, ⟨.wind, -178, -43⟩] ∧
    ¬ ∀ e ∈ getCalorieBreakdown ⟨417, 595, 0, -178, 0⟩,
        0 ≤ e.percentage ∧ e.percentage ≤ 100 := by
  have hb : breakdownPct 595 417 = 143 := by
    unfold breakdownPct
    apply jsRoundQ_eq <;> norm_num
  have hw : breakdownPct (-178) 417 = -43 := by
    unfold breakdownPct
    apply jsRoundQ_eq <;> norm_num
  have hmain : getCalorieBreakdown ⟨417, 595, 0, -178, 0⟩ =
      [⟨.base, 595, 143⟩, ⟨.wind, -178, -43⟩] := by
    unfold getCalorieBreakdown
    rw [show ((⟨417, 595, 0, -178, 0⟩ : CalorieData)).baseCalories = 595 from rfl]
    simp only [List.filter_cons, List.filter_nil]
    norm_num [hb, hw]
  refine ⟨hmain, fun hall => ?_⟩
  have hcontra := hall ⟨.wind, -178, -43⟩ (by rw [hmain]; simp)
  exact absurd hcontra.1 (by norm_num)

/-- Evaluation rule for the JavaScript rounding of a real. -/
lemma jsRound_eq (x : ℝ) (z : ℤ) (h1 : (z : ℝ) ≤ x + 1/2) (h2 : x + 1/2 < z + 1) :
    jsRound x = z := by
  unfold jsRound
  rw [Int.floor_eq_iff]
  exact ⟨h1, h2⟩

/-- The MET step function at 20 km/h. -/
lemma getBaseMET_twenty : getBaseMET 20 = 8.5 := by
  unfold getBaseMET
  rw [if_neg (by norm_num), if_neg (by norm_num), if_pos (by norm_num)]

/-- With no wind the wind-resistance factor vanishes. -/
lemma windResistance_no_wind (s dir : ℝ) (hs : s ≠ 0) :
    calculateWindResistance s 0 dir = 0 := by
  unfold calculateWindResistance
  rw [zero_mul, add_zero, div_self hs, Real.one_rpow, sub_self,
    min_eq_right (by norm_num : (0:ℝ) ≤ 0.5),
    max_eq_right (by norm_num : (-0.3:ℝ) ≤ 0)]

/-- With weight zero every calorie component of the *embedded* model
is zero and a complete estimate is returned.  This is an identity of
the real-valued embedding; it coincides with the JavaScript behaviour
only on the NaN-free inputs spelled out in the caveats on
`calculateWindResistance` and `calculateDetailedCalories`, which is
why the claim-level theorem below adds those hypotheses. -/
lemma detailedCalories_weight_zero (p : CalorieParams) (h : p.weight = 0) :
    calculateDetailedCalories p =
      { totalCalories := 0, baseCalories := 0, elevationCalories := 0,
        windAdjustment := 0, environmentalAdjustment := 0,
        baseMET := getBaseMET p.averageSpeed, caloriesPerKm := 0,
        caloriesPerHour := 0 } := by
  have hb : baseCaloriesOf p = 0 := by
    unfold baseCaloriesOf
    rw [h, mul_zero, zero_mul]
  have he : elevationCaloriesOf p = 0 := by
    unfold elevationCaloriesOf
    rw [h, mul_zero, zero_mul]
  have hw : windAdjustmentOf p = 0 := by
    unfold windAdjustmentOf
    rw [hb, zero_mul]
  have henv : environmentalAdjustmentOf p = 0 := by
    unfold environmentalAdjustmentOf
    rw [hb, zero_mul]
  have ht : totalCaloriesOf p = 0 := by
    unfold totalCaloriesOf
    rw [hb, he, hw, henv]
    ring
  have h0 : jsRound 0 = 0 := jsRound_eq 0 0 (by norm_num) (by norm_num)
  unfold calculateDetailedCalories
  simp only [CalorieEstimate.mk.injEq]
  refine ⟨?_, ?_, ?_, ?_, ?_, trivial, ?_, ?_⟩
  · rw [ht, h0]
  · rw [hb, h0]
  · rw [he, h0]
  · rw [hw, h0]
  · rw [henv, h0]
  · rw [ht, zero_div, h0]
  · rw [ht, zero_div, h0]

/-- C1 (amended): the Calorie Model performs no input validation and
never fails — there is no `InvalidInputError` anywhere in the code.
In particular, for every input whose weight is 0 (non-positive) and
whose remaining arithmetic stays NaN-free in JavaScript — nonzero
distance, duration and average speed, and a non-negative base for the
2.5-power of the wind factor — it still produces a calorie estimate
with every calorie component equal to zero, rather than surfacing an
error to the caller.  (On weight-0 inputs outside this regime the code
still returns an estimate object without raising, but some of its
fields are NaN, which the real-valued embedding does not model; the
hypotheses confine the theorem to the faithful domain.) -/
theorem C1_no_validation_amended (p : CalorieParams) (hw : p.weight = 0)
    (_hd : p.distance ≠ 0) (_hdur : p.duration ≠ 0) (_hs : p.averageSpeed ≠ 0)
    (_hb : 0 ≤ (p.averageSpeed + p.weather.windSpeed *
        Real.cos (p.weather.windDirection * Real.pi / 180)) / p.averageSpeed) :
    calculateDetailedCalories p =
      { totalCalories := 0, baseCalories := 0, elevationCalories := 0,
        windAdjustment := 0, environmentalAdjustment := 0,
        baseMET := getBaseMET p.averageSpeed, caloriesPerKm := 0,
        caloriesPerHour := 0 } :=
  detailedCalories_weight_zero p hw

/-- C1 (witness): the no-validation theorem at a concrete input with
weight 0, nonzero distance/duration/speed, and no wind (so the power
base is `10/10 = 1 ≥ 0`). -/
theorem C1_witness :
    calculateDetailedCalories ⟨0, 5, 30, 100, 10, ⟨0, 90, 5, 80⟩⟩ =
      { totalCalories := 0, baseCalories := 0, elevationCalories := 0,
        windAdjustment := 0, environmentalAdjustment := 0,
        baseMET := getBaseMET 10, caloriesPerKm := 0, caloriesPerHour := 0 } :=
  C1_no_validation_amended ⟨0, 5, 30, 100, 10, ⟨0, 90, 5, 80⟩⟩ rfl
    (by norm_num) (by norm_num) (by norm_num)
    (by
      show (0:ℝ) ≤ (10 + 0 * Real.cos (90 * Real.pi / 180)) / 10
      rw [zero_mul, add_zero]
      norm_num)

/-- C1 (counterexample): at weight 0 — a non-positive weight — with all
other inputs positive (distance 10 km, duration 60 min, speed 20 km/h,
neutral weather), the model does not fail: it returns the complete
estimate below.  The embedding is a total function because every path
of `calculateDetailedCalories` in the source returns; no
`InvalidInputError` (or any throw) exists in the function, so the
claimed failure cannot occur and a calorie estimate *is* produced. -/
theorem C1_counterexample :
    calculateDetailedCalories ⟨0, 10, 60, 0, 20, ⟨0, 0, 20, 50⟩⟩ =
      { totalCalories := 0, baseCalories := 0, elevationCalories := 0,
        windAdjustment := 0, environmentalAdjustment := 0, baseMET := 8.5,
        caloriesPerKm := 0, caloriesPerHour := 0 } := by
  rw [detailedCalories_weight_zero ⟨0, 10, 60, 0, 20, ⟨0, 0, 20, 50⟩⟩ rfl]
  rw [show (⟨0, 10, 60, 0, 20, ⟨0, 0, 20, 50⟩⟩ : CalorieParams).averageSpeed = 20 from rfl,
    getBaseMET_twenty]

/-- C4: for every positive average speed and arbitrary wind speed and
direction, the (unrounded) wind adjustment equals the base calories
times the spec's speed factor: headwind component
`windSpeed × cos(windDirectionDeg in radians)`, effective speed
`averageSpeed + headwind`, factor `(effective/averageSpeed)^2.5 − 1`
clamped to `[−0.30, +0.50]`.  The code clamps with
`Math.max(-0.3, Math.min(0.5, ·))`, the spec reads as clamping to the
interval; the two agree. -/
theorem C4_wind_adjustment (p : CalorieParams) (_h : 0 < p.averageSpeed) :
    windAdjustmentOf p =
      baseCaloriesOf p *
        specWindFactor p.averageSpeed p.weather.windSpeed p.weather.windDirection := by
  unfold windAdjustmentOf calculateWindResistance specWindFactor
  rw [max_min_distrib_left, max_eq_right (by norm_num : (-0.3:ℝ) ≤ 0.5)]

/-- C4 (witness): the wind-adjustment theorem at the concrete input
speed 20 km/h, wind 0 m/s, direction 0°. -/
theorem C4_witness :
    windAdjustmentOf ⟨70, 10, 60, 0, 20, ⟨0, 0, 20, 50⟩⟩ =
      baseCaloriesOf ⟨70, 10, 60, 0, 20, ⟨0, 0, 20, 50⟩⟩ * specWindFactor 20 0 0 :=
  C4_wind_adjustment ⟨70, 10, 60, 0, 20, ⟨0, 0, 20, 50⟩⟩ (by norm_num)

/-- C5: at speed 20 km/h, weight 70 kg, duration 60 min, elevation
gain 0, wind 0, temperature 20 °C, humidity 50 % (distance 10 km), the
model returns baseMET 8.5, baseCalories 595, elevationCalories 0,
windAdjustment 0, environmentalAdjustment 0 and totalCalories 595; in
particular the environmental adjustment is exactly zero at 20 °C and
50 % humidity. -/
theorem C5_reference_point :
    (calculateDetailedCalories ⟨70, 10, 60, 0, 20, ⟨0, 0, 20, 50⟩⟩).baseMET = 8.5 ∧
    (calculateDetailedCalories ⟨70, 10, 60, 0, 20, ⟨0, 0, 20, 50⟩⟩).baseCalories = 595 ∧
    (calculateDetailedCalories ⟨70, 10, 60, 0, 20, ⟨0, 0, 20, 50⟩⟩).elevationCalories = 0 ∧
    (calculateDetailedCalories ⟨70, 10, 60, 0, 20, ⟨0, 0, 20, 50⟩⟩).windAdjustment = 0 ∧
    (calculateDetailedCalories ⟨70, 10, 60, 0, 20, ⟨0, 0, 20, 50⟩⟩).environmentalAdjustment
      = 0 ∧
    (calculateDetailedCalories ⟨70, 10, 60, 0, 20, ⟨0, 0, 20, 50⟩⟩).totalCalories = 595 := by
  have hbase : baseCaloriesOf ⟨70, 10, 60, 0, 20, ⟨0, 0, 20, 50⟩⟩ = 595 := by
    unfold baseCaloriesOf
    rw [show (⟨70, 10, 60, 0, 20, ⟨0, 0, 20, 50⟩⟩ : CalorieParams).averageSpeed = 20
        from rfl, getBaseMET_twenty]
    norm_num
  have helev : elevationCaloriesOf ⟨70, 10, 60, 0, 20, ⟨0, 0, 20, 50⟩⟩ = 0 := by
    unfold elevationCaloriesOf
    norm_num
  have hwind : windAdjustmentOf ⟨70, 10, 60, 0, 20, ⟨0, 0, 20, 50⟩⟩ = 0 := by
    unfold windAdjustmentOf
    rw [show (⟨70, 10, 60, 0, 20, ⟨0, 0, 20, 50⟩⟩ : CalorieParams).weather.windSpeed = 0
        from rfl,
      windResistance_no_wind _ _ (by norm_num), mul_zero]
  have henv : environmentalAdjustmentOf ⟨70, 10, 60, 0, 20, ⟨0, 0, 20, 50⟩⟩ = 0 := by
    unfold environmentalAdjustmentOf calculateTemperatureFactor calculateHumidityFactor
    rw [if_pos (by norm_num : (15:ℝ) ≤ 20 ∧ (20:ℝ) ≤ 25)]
    norm_num
  have htot : totalCaloriesOf ⟨70, 10, 60, 0, 20, ⟨0, 0, 20, 50⟩⟩ = 595 := by
    unfold totalCaloriesOf
    rw [hbase, helev, hwind, henv]
    norm_num
  have h595 : jsRound 595 = 595 := jsRound_eq 595 595 (by norm_num) (by norm_num)
  have h0 : jsRound 0 = 0 := jsRound_eq 0 0 (by norm_num) (by norm_num)
  refine ⟨?_, ?_, ?_, ?_, ?_, ?_⟩
  · exact getBaseMET_twenty
  · show jsRound (baseCaloriesOf _) = 595
    rw [hbase, h595]
  · show jsRound (elevationCaloriesOf _) = 0
    rw [helev, h0]
  · show jsRound (windAdjustmentOf _) = 0
    rw [hwind, h0]
  · show jsRound (environmentalAdjustmentOf _) = 0
    rw [henv, h0]
  · show jsRound (totalCaloriesOf _) = 595
    rw [htot, h595]

end CyclingCalc
